import Mathlib

/-!
Shallow embedding of the Soutien repository (`src/Soutien.h`).

The C++ class `Soutien::GuardedFunction<Func, Requirements...>` wraps a
zero-argument callable `mFunction`, a display name `mName`, a tuple of
requirement objects `mRequirements` stored BY VALUE (the constructor takes
`Requirements... reqs` by value and initialises `mRequirements(reqs...)`),
and a flag `mSatisfied` initialised to `false`.

`operator()` folds over the stored requirements with
`allMet &= req.satisfied() || (print diagnostic, false)` — the `||` prints a
line for each requirement whose `satisfied()` is false, and the `&=` never
short-circuits the fold itself — and, when all requirements are satisfied,
runs `mFunction()` and then sets `mSatisfied = true`.

Embedding choices:
  - requirement objects are modelled homogeneously as `GuardedFunction`
    values (the capability set used is `name()`/`satisfied()` only);
  - the wrapped callable is modelled by an identifier `mFunction : Nat`,
    and invocation takes an interpretation `interp : Nat → Except E Unit`
    giving the outcome of running that callable: `Except.ok ()` is normal
    completion, `Except.error e` is a fault (C++ exception) of payload `e`;
  - `invoke interp t` returns the diagnostic lines emitted (each line is
    streamed to `std::cout` followed by a `'\n'` terminator, which is not
    part of the modelled line content), the number of times the wrapped
    work was entered, the propagated fault (if any), and the state of the
    object after the call.
-/

namespace Soutien

/-- State of a `Soutien::GuardedFunction` object: the wrapped callable
(`mFunction`, modelled by an identifier), the display name `mName`, the
requirement objects stored by value in `mRequirements`, and the flag
`mSatisfied`. -/
inductive GuardedFunction : Type where
  | mk (mFunction : Nat) (mName : String) (mRequirements : List GuardedFunction)
      (mSatisfied : Bool) : GuardedFunction

/-- The identifier of the wrapped callable `mFunction`. -/
def GuardedFunction.func : GuardedFunction → Nat
  | .mk f _ _ _ => f

/-- Accessor `name()`: returns `mName`. -/
def GuardedFunction.name : GuardedFunction → String
  | .mk _ n _ _ => n

/-- The stored requirement objects `mRequirements` (by-value copies). -/
def GuardedFunction.requirements : GuardedFunction → List GuardedFunction
  | .mk _ _ r _ => r

/-- Accessor `satisfied()`: returns `mSatisfied`. -/
def GuardedFunction.satisfied : GuardedFunction → Bool
  | .mk _ _ _ s => s

/-- The assignment `mSatisfied = true` performed at the end of a successful
call. -/
def GuardedFunction.setSatisfied : GuardedFunction → GuardedFunction
  | .mk f n r _ => .mk f n r true

/-- The constructor `GuardedFunction(func, name, reqs...)` (also reachable
through the helper `createGuardedFunction`): stores the callable, the name
and by-value copies of the requirement objects; `mSatisfied` starts `false`. -/
def createGuardedFunction (f : Nat) (n : String) (deps : List GuardedFunction) :
    GuardedFunction :=
  .mk f n deps false

/-- The diagnostic line streamed for an unmet requirement:
`Dependency `X` not met. Blocking `T`` (backticks around both names in the
source; the terminating newline character is modelled as the line break). -/
def diagLine (dep blocked : String) : String :=
  "Dependency `" ++ dep ++ "` not met. Blocking `" ++ blocked ++ "`"

/-- One step of the fold expression
`allMet &= req.satisfied() || (std::cout << ..., false)`: the accumulator is
the pair of the running `allMet` and the diagnostic lines emitted so far. -/
def checkStep (blocked : String) (acc : Bool × List String)
    (req : GuardedFunction) : Bool × List String :=
  (acc.1 && req.satisfied,
   if req.satisfied then acc.2 else acc.2 ++ [diagLine req.name blocked])

/-- The whole `std::apply` fold over `mRequirements` in `operator()`. -/
def checkDeps (blocked : String) (reqs : List GuardedFunction) :
    Bool × List String :=
  reqs.foldl (checkStep blocked) (true, [])

/-- Observable outcome of one `operator()` call: diagnostic lines, number of
entries into the wrapped work, propagated fault, and the object's state when
the call (or its exception) leaves the body. -/
structure InvokeRes (E : Type) where
  diags : List String
  runs : Nat
  fault : Option E
  state : GuardedFunction

/-- `operator()`: evaluate the fold over the requirements; if `allMet`, run
`mFunction()` — on normal completion set `mSatisfied = true`, on a fault the
assignment is not reached and the fault propagates — otherwise do nothing
beyond the diagnostics. -/
def invoke {E : Type} (interp : Nat → Except E Unit) (t : GuardedFunction) :
    InvokeRes E :=
  let c := checkDeps t.name t.requirements
  if c.1 then
    match interp t.func with
    | Except.ok _ => ⟨c.2, 1, none, t.setSatisfied⟩
    | Except.error e => ⟨c.2, 1, some e, t⟩
  else
    ⟨c.2, 0, none, t⟩

/-- The public member calls of the class: `operator()`, `satisfied() const`
and `name() const`. -/
inductive Op : Type where
  | callInvoke : Op
  | callSatisfied : Op
  | callName : Op

/-- Effect of one member call on the object state: the two `const` accessors
leave it unchanged, `operator()` yields the post-call state. -/
def applyOp {E : Type} (interp : Nat → Except E Unit) (t : GuardedFunction) :
    Op → GuardedFunction
  | Op.callInvoke => (invoke interp t).state
  | Op.callSatisfied => t
  | Op.callName => t

/-- State of the object after a sequence of member calls. -/
def runOps {E : Type} (interp : Nat → Except E Unit) (t : GuardedFunction)
    (ops : List Op) : GuardedFunction :=
  ops.foldl (applyOp interp) t

/-- An interpretation under which every wrapped callable completes normally. -/
def noFault : Nat → Except Unit Unit := fun _ => Except.ok ()

/-- The ASCII single-quote character, as a string. -/
def singleQuote : String := String.singleton (Char.ofNat 39)

/-- Modelled from the spec: the diagnostic-line format as the spec's words
state it — `Dependency '<dep-name>' not met. Blocking '<task-name>'` with
single quotes around both names. Declared only to be compared with
`diagLine`, which is embedded from the source. -/
def specDiagLine (dep blocked : String) : String :=
  "Dependency " ++ singleQuote ++ dep ++ singleQuote ++ " not met. Blocking "
    ++ singleQuote ++ blocked ++ singleQuote

@[simp] lemma func_mk (f : Nat) (n : String) (r : List GuardedFunction)
    (s : Bool) : (GuardedFunction.mk f n r s).func = f := rfl

@[simp] lemma name_mk (f : Nat) (n : String) (r : List GuardedFunction)
    (s : Bool) : (GuardedFunction.mk f n r s).name = n := rfl

@[simp] lemma requirements_mk (f : Nat) (n : String)
    (r : List GuardedFunction) (s : Bool) :
    (GuardedFunction.mk f n r s).requirements = r := rfl

@[simp] lemma satisfied_mk (f : Nat) (n : String) (r : List GuardedFunction)
    (s : Bool) : (GuardedFunction.mk f n r s).satisfied = s := rfl

lemma setSatisfied_def (t : GuardedFunction) :
    t.setSatisfied = .mk t.func t.name t.requirements true := by
  cases t; rfl

@[simp] lemma satisfied_setSatisfied (t : GuardedFunction) :
    t.setSatisfied.satisfied = true := by
  cases t; rfl

@[simp] lemma func_setSatisfied (t : GuardedFunction) :
    t.setSatisfied.func = t.func := by
  cases t; rfl

@[simp] lemma name_setSatisfied (t : GuardedFunction) :
    t.setSatisfied.name = t.name := by
  cases t; rfl

@[simp] lemma requirements_setSatisfied (t : GuardedFunction) :
    t.setSatisfied.requirements = t.requirements := by
  cases t; rfl

/-- The diagnostic lines the fold produces, in requirement order. -/
def diagsOf (t : GuardedFunction) : List String :=
  (t.requirements.filter fun r => !r.satisfied).map
    fun r => diagLine r.name t.name

lemma foldl_checkStep (blocked : String) (reqs : List GuardedFunction)
    (b : Bool) (acc : List String) :
    reqs.foldl (checkStep blocked) (b, acc) =
      (b && reqs.all GuardedFunction.satisfied,
       acc ++ (reqs.filter fun r => !r.satisfied).map
         fun r => diagLine r.name blocked) := by
  induction reqs generalizing b acc with
  | nil => simp
  | cons x xs ih =>
    cases hx : x.satisfied with
    | true =>
      simp [List.foldl, checkStep, hx, ih, Bool.and_assoc]
    | false =>
      simp [List.foldl, checkStep, hx, ih, Bool.and_assoc]

lemma checkDeps_eq (blocked : String) (reqs : List GuardedFunction) :
    checkDeps blocked reqs =
      (reqs.all GuardedFunction.satisfied,
       (reqs.filter fun r => !r.satisfied).map
         fun r => diagLine r.name blocked) := by
  simp [checkDeps, foldl_checkStep]

lemma invoke_def {E : Type} (interp : Nat → Except E Unit)
    (t : GuardedFunction) :
    invoke interp t =
      if t.requirements.all GuardedFunction.satisfied then
        match interp t.func with
        | Except.ok _ => ⟨diagsOf t, 1, none, t.setSatisfied⟩
        | Except.error e => ⟨diagsOf t, 1, some e, t⟩
      else
        ⟨diagsOf t, 0, none, t⟩ := by
  unfold invoke
  rw [checkDeps_eq]
  rfl

lemma invoke_diags {E : Type} (interp : Nat → Except E Unit)
    (t : GuardedFunction) : (invoke interp t).diags = diagsOf t := by
  rw [invoke_def]
  split
  · cases interp t.func <;> rfl
  · rfl

lemma invoke_runs {E : Type} (interp : Nat → Except E Unit)
    (t : GuardedFunction) :
    (invoke interp t).runs =
      if t.requirements.all GuardedFunction.satisfied then 1 else 0 := by
  rw [invoke_def]
  split
  · cases interp t.func <;> simp
  · rfl

lemma invoke_state_func {E : Type} (interp : Nat → Except E Unit)
    (t : GuardedFunction) : (invoke interp t).state.func = t.func := by
  rw [invoke_def]
  split
  · cases interp t.func <;> simp
  · rfl

lemma invoke_state_name {E : Type} (interp : Nat → Except E Unit)
    (t : GuardedFunction) : (invoke interp t).state.name = t.name := by
  rw [invoke_def]
  split
  · cases interp t.func <;> simp
  · rfl

lemma invoke_state_requirements {E : Type} (interp : Nat → Except E Unit)
    (t : GuardedFunction) :
    (invoke interp t).state.requirements = t.requirements := by
  rw [invoke_def]
  split
  · cases interp t.func <;> simp
  · rfl

lemma invoke_of_allMet_ok {E : Type} {interp : Nat → Except E Unit}
    {t : GuardedFunction}
    (hall : t.requirements.all GuardedFunction.satisfied = true)
    (hok : interp t.func = Except.ok ()) :
    invoke interp t = ⟨diagsOf t, 1, none, t.setSatisfied⟩ := by
  rw [invoke_def, if_pos hall, hok]

lemma invoke_of_allMet_error {E : Type} {interp : Nat → Except E Unit}
    {t : GuardedFunction} {e : E}
    (hall : t.requirements.all GuardedFunction.satisfied = true)
    (herr : interp t.func = Except.error e) :
    invoke interp t = ⟨diagsOf t, 1, some e, t⟩ := by
  rw [invoke_def, if_pos hall, herr]

lemma invoke_of_notAllMet {E : Type} {interp : Nat → Except E Unit}
    {t : GuardedFunction}
    (hall : t.requirements.all GuardedFunction.satisfied = false) :
    invoke interp t = ⟨diagsOf t, 0, none, t⟩ := by
  rw [invoke_def]
  simp [hall]

lemma invoke_satisfied_mono {E : Type} (interp : Nat → Except E Unit)
    (t : GuardedFunction) (h : t.satisfied = true) :
    (invoke interp t).state.satisfied = true := by
  rw [invoke_def]
  split
  · cases interp t.func <;> simp [h]
  · simpa using h

lemma applyOp_satisfied_mono {E : Type} (interp : Nat → Except E Unit)
    (t : GuardedFunction) (o : Op) (h : t.satisfied = true) :
    (applyOp interp t o).satisfied = true := by
  cases o with
  | callInvoke => exact invoke_satisfied_mono interp t h
  | callSatisfied => exact h
  | callName => exact h

lemma runOps_satisfied_mono {E : Type} (interp : Nat → Except E Unit)
    (ops : List Op) :
    ∀ t : GuardedFunction, t.satisfied = true →
      (runOps interp t ops).satisfied = true := by
  induction ops with
  | nil => intro t h; simpa [runOps] using h
  | cons o os ih =>
    intro t h
    exact ih (applyOp interp t o) (applyOp_satisfied_mono interp t o h)

/-- An interpretation whose wrapped callables all raise a fault carrying the
payload `42`. -/
def alwaysFault : Nat → Except Nat Unit := fun _ => Except.error 42

/-- Claim C3: dependency checking during `operator()` is not short-circuited —
in one call, every requirement whose `satisfied()` is false contributes its
diagnostic line, not only the first one found. -/
theorem claim_C3_diagnostics_complete {E : Type} (interp : Nat → Except E Unit)
    (t r : GuardedFunction) (hr : r ∈ t.requirements)
    (hs : r.satisfied = false) :
    diagLine r.name t.name ∈ (invoke interp t).diags := by
  rw [invoke_diags]
  exact List.mem_map_of_mem _ (List.mem_filter.mpr ⟨hr, by simp [hs]⟩)

/-- Witness for C3 at the spec's example `[X: unsatisfied, Y: satisfied,
Z: unsatisfied]`: a single call reports both `X` and `Z`. -/
theorem claim_C3_witness :
    diagLine "X" "T" ∈ (invoke noFault (createGuardedFunction 0 "T"
      [createGuardedFunction 1 "X" [],
       (invoke noFault (createGuardedFunction 2 "Y" [])).state,
       createGuardedFunction 3 "Z" []])).diags ∧
    diagLine "Z" "T" ∈ (invoke noFault (createGuardedFunction 0 "T"
      [createGuardedFunction 1 "X" [],
       (invoke noFault (createGuardedFunction 2 "Y" [])).state,
       createGuardedFunction 3 "Z" []])).diags :=
  ⟨claim_C3_diagnostics_complete noFault
     (createGuardedFunction 0 "T"
       [createGuardedFunction 1 "X" [],
        (invoke noFault (createGuardedFunction 2 "Y" [])).state,
        createGuardedFunction 3 "Z" []])
     (createGuardedFunction 1 "X" []) (List.Mem.head _) rfl,
   claim_C3_diagnostics_complete noFault
     (createGuardedFunction 0 "T"
       [createGuardedFunction 1 "X" [],
        (invoke noFault (createGuardedFunction 2 "Y" [])).state,
        createGuardedFunction 3 "Z" []])
     (createGuardedFunction 3 "Z" [])
     (List.Mem.tail _ (List.Mem.tail _ (List.Mem.head _))) rfl⟩

/-- Claim C4: when every requirement reports `satisfied()` at call time
(vacuously so with zero requirements), `operator()` enters the wrapped work
exactly once, and if the work completes normally the task's `satisfied()` is
true after the call. -/
theorem claim_C4_all_met_runs_once {E : Type} (interp : Nat → Except E Unit)
    (t : GuardedFunction)
    (hall : ∀ r ∈ t.requirements, r.satisfied = true) :
    (invoke interp t).runs = 1 ∧
      (interp t.func = Except.ok () →
        (invoke interp t).state.satisfied = true) := by
  have hb : t.requirements.all GuardedFunction.satisfied = true :=
    List.all_eq_true.mpr hall
  refine ⟨by rw [invoke_runs, if_pos hb], fun hok => ?_⟩
  rw [invoke_of_allMet_ok hb hok]
  simp

/-- Witness for C4 at a zero-dependency task. -/
theorem claim_C4_witness :
    (invoke noFault (createGuardedFunction 0 "t" [])).runs = 1 ∧
    (invoke noFault (createGuardedFunction 0 "t" [])).state.satisfied = true :=
  ⟨(claim_C4_all_met_runs_once noFault (createGuardedFunction 0 "t" [])
      (fun r hr => absurd hr (List.not_mem_nil r))).1,
   (claim_C4_all_met_runs_once noFault (createGuardedFunction 0 "t" [])
      (fun r hr => absurd hr (List.not_mem_nil r))).2 rfl⟩

/-- Claim C5: with at least one requirement unsatisfied at call time,
`operator()` does not enter the wrapped work, leaves the whole object state
(in particular its own `mSatisfied` flag) unchanged, and signals the unmet
dependency only through the diagnostic channel — no fault is raised or
returned. -/
theorem claim_C5_unmet_blocks {E : Type} (interp : Nat → Except E Unit)
    (t r : GuardedFunction) (hr : r ∈ t.requirements)
    (hs : r.satisfied = false) :
    (invoke interp t).runs = 0 ∧ (invoke interp t).state = t ∧
      (invoke interp t).fault = none := by
  have hb : t.requirements.all GuardedFunction.satisfied = false := by
    rw [Bool.eq_false_iff]
    intro hall
    have := List.all_eq_true.mp hall r hr
    rw [hs] at this
    exact Bool.false_ne_true this
  rw [invoke_of_notAllMet hb]
  exact ⟨rfl, rfl, rfl⟩

/-- Witness for C5 at a task with one unsatisfied requirement. -/
theorem claim_C5_witness :
    (invoke noFault (createGuardedFunction 0 "t"
      [createGuardedFunction 1 "x" []])).runs = 0 ∧
    (invoke noFault (createGuardedFunction 0 "t"
      [createGuardedFunction 1 "x" []])).state =
        createGuardedFunction 0 "t" [createGuardedFunction 1 "x" []] ∧
    (invoke noFault (createGuardedFunction 0 "t"
      [createGuardedFunction 1 "x" []])).fault = none :=
  claim_C5_unmet_blocks noFault
    (createGuardedFunction 0 "t" [createGuardedFunction 1 "x" []])
    (createGuardedFunction 1 "x" []) (List.Mem.head _) rfl

/-- Claim C6: `mSatisfied` is initialised `false` at construction and is
one-way — no sequence of `operator()`, `satisfied()` or `name()` calls ever
takes it from true back to false. -/
theorem claim_C6_flag_one_way :
    (∀ (f : Nat) (n : String) (rs : List GuardedFunction),
        (createGuardedFunction f n rs).satisfied = false) ∧
    (∀ (E : Type) (interp : Nat → Except E Unit) (ops : List Op)
        (t : GuardedFunction), t.satisfied = true →
        (runOps interp t ops).satisfied = true) :=
  ⟨fun _ _ _ => rfl,
   fun _ interp ops t h => runOps_satisfied_mono interp ops t h⟩

/-- Witness for C6: a freshly constructed task is unsatisfied, and a
satisfied task stays satisfied across a further call sequence. -/
theorem claim_C6_witness :
    (createGuardedFunction 0 "t" []).satisfied = false ∧
    (runOps noFault ((invoke noFault (createGuardedFunction 0 "t" [])).state)
      [Op.callInvoke, Op.callSatisfied, Op.callName]).satisfied = true :=
  ⟨claim_C6_flag_one_way.1 0 "t" [],
   claim_C6_flag_one_way.2 Unit noFault
     [Op.callInvoke, Op.callSatisfied, Op.callName] _ rfl⟩

/-- Claim C7: when the gating check passes and the wrapped work raises a
fault, the fault propagates unmodified to the caller of `operator()` and the
object state — in particular `mSatisfied` — is unchanged, because the
assignment `mSatisfied = true` comes only after normal completion. -/
theorem claim_C7_fault_propagates {E : Type} (interp : Nat → Except E Unit)
    (t : GuardedFunction) (e : E)
    (hall : ∀ r ∈ t.requirements, r.satisfied = true)
    (herr : interp t.func = Except.error e) :
    (invoke interp t).fault = some e ∧ (invoke interp t).state = t := by
  have hb : t.requirements.all GuardedFunction.satisfied = true :=
    List.all_eq_true.mpr hall
  rw [invoke_of_allMet_error hb herr]
  exact ⟨rfl, rfl⟩

/-- Witness for C7: a zero-dependency task whose work faults with payload
`42` propagates exactly that payload and stays unsatisfied. -/
theorem claim_C7_witness :
    (invoke alwaysFault (createGuardedFunction 0 "t" [])).fault = some 42 ∧
    (invoke alwaysFault (createGuardedFunction 0 "t" [])).state =
      createGuardedFunction 0 "t" [] :=
  claim_C7_fault_propagates alwaysFault (createGuardedFunction 0 "t" []) 42
    (fun r hr => absurd hr (List.not_mem_nil r)) rfl

/-- Claim C8: `operator()` is not idempotent — the `mSatisfied` flag does not
gate re-invocation of the task itself, so two calls on a zero-dependency task
enter the wrapped work twice in total. -/
theorem claim_C8_not_idempotent {E : Type} (interp : Nat → Except E Unit)
    (t : GuardedFunction) (h : t.requirements = []) :
    (invoke interp t).runs +
      (invoke interp (invoke interp t).state).runs = 2 := by
  have h1 : (invoke interp t).runs = 1 := by
    rw [invoke_runs, h]
    rfl
  have h2 : (invoke interp (invoke interp t).state).runs = 1 := by
    rw [invoke_runs, invoke_state_requirements, h]
    rfl
  rw [h1, h2]

/-- Witness for C8 at a concrete zero-dependency task. -/
theorem claim_C8_witness :
    (invoke noFault (createGuardedFunction 0 "t" [])).runs +
      (invoke noFault
        (invoke noFault (createGuardedFunction 0 "t" [])).state).runs = 2 :=
  claim_C8_not_idempotent noFault _ rfl

/-- Claim C9: the diagnostics of one call are exactly the unmet requirements'
lines in the order the requirements were supplied at construction
(`List.filter` keeps the stored order, which `createGuardedFunction` takes
from the construction-time list). -/
theorem claim_C9_diagnostics_in_order {E : Type} (interp : Nat → Except E Unit)
    (t : GuardedFunction) :
    (invoke interp t).diags =
      (t.requirements.filter fun r => !r.satisfied).map
        fun r => diagLine r.name t.name :=
  invoke_diags interp t

/-- Claim C10: each member call leaves the wrapped callable, the name and the
stored requirement objects (hence each stored requirement's own satisfied
state) unchanged; the `const` accessors change nothing at all, so the only
field any operation may modify is the task's own `mSatisfied`, and only
`operator()` modifies it. -/
theorem claim_C10_frame {E : Type} (interp : Nat → Except E Unit)
    (t : GuardedFunction) :
    (invoke interp t).state.func = t.func ∧
    (invoke interp t).state.name = t.name ∧
    (invoke interp t).state.requirements = t.requirements ∧
    applyOp interp t Op.callSatisfied = t ∧
    applyOp interp t Op.callName = t :=
  ⟨invoke_state_func interp t, invoke_state_name interp t,
   invoke_state_requirements interp t, rfl, rfl⟩

/-- Claim C1 fails on the code: the constructor takes its requirements BY
VALUE and stores copies in `mRequirements`, not non-owning handles. With A,
B, C, D all constructed before any invocation — the natural reading of the
claim's scenario, in which construction order would be irrelevant if the
handles were non-owning — `A.Invoke()` and `B.Invoke()` change only the A
and B objects, never the copies stored inside C, so `C.Invoke()` finds both
copies unsatisfied, runs nothing, and C and D stay unsatisfied, while the
claim demands that C and D run and that all four report `Satisfied()`. -/
theorem claim_C1_counterexample :
    (invoke noFault (createGuardedFunction 0 "a" [])).state.satisfied = true ∧
    (invoke noFault (createGuardedFunction 1 "b" [])).state.satisfied = true ∧
    (invoke noFault (createGuardedFunction 2 "c"
      [createGuardedFunction 0 "a" [],
       createGuardedFunction 1 "b" []])).runs = 0 ∧
    (invoke noFault (createGuardedFunction 2 "c"
      [createGuardedFunction 0 "a" [],
       createGuardedFunction 1 "b" []])).state.satisfied = false ∧
    (invoke noFault (createGuardedFunction 3 "d"
      [createGuardedFunction 2 "c"
        [createGuardedFunction 0 "a" [],
         createGuardedFunction 1 "b" []]])).runs = 0 ∧
    (invoke noFault (createGuardedFunction 3 "d"
      [createGuardedFunction 2 "c"
        [createGuardedFunction 0 "a" [],
         createGuardedFunction 1 "b" []]])).state.satisfied = false :=
  ⟨rfl, rfl, rfl, rfl, rfl, rfl⟩

/-- Claim C1 as amended: a task stores by-value copies of its dependencies
taken at construction and reads each copy's `satisfied()` state when
`operator()` is called, so the scenario succeeds when each task is
constructed only after its dependencies have been invoked: with A and B
invoked, then C constructed from the invoked A and B states and invoked,
then D constructed from the invoked C state and invoked, the wrapped works
of C and D execute and A, B, C, D all report `Satisfied()` true. -/
theorem claim_C1_amended :
    (∀ (f : Nat) (n : String) (rs : List GuardedFunction),
        (createGuardedFunction f n rs).requirements = rs) ∧
    (invoke noFault (createGuardedFunction 0 "a" [])).state.satisfied = true ∧
    (invoke noFault (createGuardedFunction 1 "b" [])).state.satisfied = true ∧
    (invoke noFault (createGuardedFunction 2 "c"
      [(invoke noFault (createGuardedFunction 0 "a" [])).state,
       (invoke noFault (createGuardedFunction 1 "b" [])).state])).runs = 1 ∧
    (invoke noFault (createGuardedFunction 2 "c"
      [(invoke noFault (createGuardedFunction 0 "a" [])).state,
       (invoke noFault (createGuardedFunction 1 "b" [])).state])).state.satisfied
      = true ∧
    (invoke noFault (createGuardedFunction 3 "d"
      [(invoke noFault (createGuardedFunction 2 "c"
        [(invoke noFault (createGuardedFunction 0 "a" [])).state,
         (invoke noFault (createGuardedFunction 1 "b" [])).state])).state])).runs
      = 1 ∧
    (invoke noFault (createGuardedFunction 3 "d"
      [(invoke noFault (createGuardedFunction 2 "c"
        [(invoke noFault (createGuardedFunction 0 "a" [])).state,
         (invoke noFault (createGuardedFunction 1 "b"
           [])).state])).state])).state.satisfied = true :=
  ⟨fun _ _ _ => rfl, rfl, rfl, rfl, rfl, rfl, rfl⟩

/-- Claim C2 fails on the code: the source streams backticks around both
names, not single quotes, so the emitted line for unmet dependency `x`
blocking task `t` differs from the single-quoted form the claim states. -/
theorem claim_C2_counterexample :
    (invoke noFault (createGuardedFunction 0 "t"
      [createGuardedFunction 1 "x" []])).diags = [diagLine "x" "t"] ∧
    diagLine "x" "t" ≠ specDiagLine "x" "t" :=
  ⟨rfl, by decide⟩

/-- Claim C2 as amended: every diagnostic line emitted during a call has the
form "Dependency " then the unmet requirement's name then " not met.
Blocking " then the blocked task's name, with backticks (not single quotes)
around both names, for some requirement of the task whose `satisfied()` is
false. -/
theorem claim_C2_amended_format {E : Type} (interp : Nat → Except E Unit)
    (t : GuardedFunction) (d : String)
    (hd : d ∈ (invoke interp t).diags) :
    ∃ r, r ∈ t.requirements ∧ r.satisfied = false ∧
      d = "Dependency `" ++ r.name ++ "` not met. Blocking `"
            ++ t.name ++ "`" := by
  rw [invoke_diags] at hd
  obtain ⟨r, hr, hdr⟩ := List.mem_map.mp hd
  obtain ⟨hmem, hsat⟩ := List.mem_filter.mp hr
  exact ⟨r, hmem, by simpa using hsat, hdr.symm⟩

/-- Witness for the amended C2 at a concrete task with one unmet
requirement. -/
theorem claim_C2_amended_witness :
    ∃ r, r ∈ (createGuardedFunction 0 "t"
        [createGuardedFunction 1 "x" []]).requirements ∧
      r.satisfied = false ∧
      "Dependency `x` not met. Blocking `t`" =
        "Dependency `" ++ r.name ++ "` not met. Blocking `"
          ++ (createGuardedFunction 0 "t"
                [createGuardedFunction 1 "x" []]).name ++ "`" :=
  claim_C2_amended_format noFault
    (createGuardedFunction 0 "t" [createGuardedFunction 1 "x" []])
    "Dependency `x` not met. Blocking `t`" (by decide)

end Soutien
